import Mathlib

/-!
Shallow embedding of the `offchain-demo` pallet
(`src/pallets/offchain-demo/src/lib.rs`).

Byte strings (`Vec<u8>`) are modelled as `List Nat`, `u32`/`u64` values as
`Nat`.  The external collaborators (HTTP transport, serde_json, keystore,
the compare-and-set success of offchain local storage) are modelled as
oracle parameters gathered in `Env`; everything else is translated
directly from the Rust source.
-/

namespace OffchainDemo

/-- Errors declared by `decl_error!` in the pallet. -/
inductive ErrorT where
  | SignedSubmitNumberError
  | UnsignedSubmitNumberError
  | HttpFetchingError0
  | HttpFetchingError1
  | HttpFetchingError2
  | HttpFetchingError3
  | HttpFetchingError4
  | HttpFetchingError5
  | HttpFetchingError6
  | HttpFetchingError7
  | HttpFetchingError8
  | HttpFetchingError9
  | AlreadyFetched
deriving DecidableEq

/-- Dispatch-level failure: `ensure_signed` / `ensure_none` reject with `BadOrigin`. -/
inductive DispatchError where
  | BadOrigin
deriving DecidableEq

/-- Transaction origins of `frame_system`. -/
inductive Origin where
  | Signed (who : Nat)
  | Root
  | NoOrigin
deriving DecidableEq

/-- Model of `ensure_signed`. -/
def ensure_signed : Origin → Except DispatchError Nat
  | .Signed who => .ok who
  | _ => .error .BadOrigin

/-- Model of `ensure_none`. -/
def ensure_none : Origin → Except DispatchError Unit
  | .NoOrigin => .ok ()
  | _ => .error .BadOrigin

/-- `struct TaskQueue` of the source: a remote request target and a header value. -/
structure TaskQueue where
  http_remote_reqst : List Nat
  http_header_usr : List Nat
deriving DecidableEq

/-- `Default` for `TaskQueue` (empty byte vectors), used by the storage map. -/
def TaskQueue.defaultVal : TaskQueue := ⟨[], []⟩

/-- `struct GithubInfo` of the source. -/
structure GithubInfo where
  login : List Nat
  blog : List Nat
  public_repos : Nat
deriving DecidableEq

/-- Events declared by `decl_event!`. -/
inductive EventT where
  | NewNumber (who : Option Nat) (value : Nat)
deriving DecidableEq

/-- The pallet calls declared in `decl_module!`. -/
inductive PalletCall where
  | insert_new_task (task_number : Nat) (http_remote_reqst : List Nat) (http_header_usr : List Nat)
  | empty_tasks
  | submit_agent_signed (agent : List Nat)
  | submit_number_signed (number : Nat)
  | submit_number_unsigned (number : Nat)
deriving DecidableEq

/-- `decl_storage!` items of the pallet (the ledger-resident state). -/
structure LedgerState where
  numbers : List Nat
  taskQueueByNumber : Nat → TaskQueue
  queueAvailable : Bool
  userAgentOnChain : List Nat

/-- Genesis ledger state: all storage at its default value. -/
def emptyLedger : LedgerState :=
  { numbers := []
    taskQueueByNumber := fun _ => TaskQueue.defaultVal
    queueAvailable := false
    userAgentOnChain := [] }

/-- `NUM_VEC_LEN` constant from the source. -/
def NUM_VEC_LEN : Nat := 10

/-- Bytes of a string literal (all our literals are ASCII). -/
def strToBytes (s : String) : List Nat := s.toList.map Char.toNat

/-- `HTTP_REMOTE_REQUEST_BYTES` constant from the source. -/
def HTTP_REMOTE_REQUEST_BYTES : List Nat :=
  strToBytes "https://api.github.com/orgs/substrate-developer-hub"

/-- Wrapping `u64` sum, modelling `numbers.iter().sum::<u64>()`. -/
def sumU64 (l : List Nat) : Nat := l.foldl (fun a b => (a + b) % (2 ^ 64)) 0

/-- The average computed (for logging only) inside `append_or_replace_number`. -/
def average (numbers : List Nat) : Nat :=
  match numbers.length with
  | 0 => 0
  | _ => sumU64 numbers / numbers.length

/-- The body of the `Numbers::mutate` closure in `append_or_replace_number`:
push while the vector is shorter than `NUM_VEC_LEN`, otherwise overwrite the
slot at index `numbers.len() % NUM_VEC_LEN`. -/
def numbersStep (numbers : List Nat) (number : Nat) : List Nat :=
  if numbers.length < NUM_VEC_LEN then numbers ++ [number]
  else numbers.set (numbers.length % NUM_VEC_LEN) number

/-- `append_or_replace_number`: mutate `Numbers`, log the average, emit
`NewNumber(who, number)`, return `Ok(())`. -/
def append_or_replace_number (who : Option Nat) (number : Nat) (st : LedgerState) :
    Except DispatchError Unit × LedgerState × List EventT :=
  let numbers1 := numbersStep st.numbers number
  let _avg := average numbers1
  (.ok (), { st with numbers := numbers1 }, [.NewNumber who number])

/-- `update_agent`: unconditionally store the agent bytes. -/
def update_agent (_who : Option Nat) (agent : List Nat) (st : LedgerState) :
    Except DispatchError Unit × LedgerState :=
  (.ok (), { st with userAgentOnChain := agent })

/-- Dispatchable `insert_new_task`: requires a signed origin, writes the
`TaskQueueByNumber` entry and sets `QueueAvailable` to true. -/
def insert_new_task (origin : Origin) (task_number : Nat)
    (http_remote_reqst http_header_usr : List Nat) (st : LedgerState) :
    Except DispatchError Unit × LedgerState :=
  match ensure_signed origin with
  | .error e => (.error e, st)
  | .ok _ =>
    (.ok (), { st with
      taskQueueByNumber := fun k =>
        if k = task_number then ⟨http_remote_reqst, http_header_usr⟩
        else st.taskQueueByNumber k
      queueAvailable := true })

/-- Dispatchable `empty_tasks`: the source performs no origin check at all;
it just sets `QueueAvailable` to false and returns `Ok(())`. -/
def empty_tasks (_origin : Origin) (st : LedgerState) :
    Except DispatchError Unit × LedgerState :=
  (.ok (), { st with queueAvailable := false })

/-- Dispatchable `submit_agent_signed`. -/
def submit_agent_signed (origin : Origin) (agent : List Nat) (st : LedgerState) :
    Except DispatchError Unit × LedgerState :=
  match ensure_signed origin with
  | .error e => (.error e, st)
  | .ok who => update_agent (some who) agent st

/-- Dispatchable `submit_number_signed`. -/
def submit_number_signed (origin : Origin) (number : Nat) (st : LedgerState) :
    Except DispatchError Unit × LedgerState × List EventT :=
  match ensure_signed origin with
  | .error e => (.error e, st, [])
  | .ok who => append_or_replace_number (some who) number st

/-- Dispatchable `submit_number_unsigned`. -/
def submit_number_unsigned (origin : Origin) (number : Nat) (st : LedgerState) :
    Except DispatchError Unit × LedgerState × List EventT :=
  match ensure_none origin with
  | .error e => (.error e, st, [])
  | .ok _ => append_or_replace_number none number st

/-! ## Offchain worker side -/

/-- Strict UTF-8 validity of a byte sequence, as checked by `str::from_utf8`. -/
def isCont (b : Nat) : Bool := 0x80 ≤ b && b ≤ 0xBF

/-- Validity of a byte list as UTF-8 (the check performed by `str::from_utf8`). -/
def isValidUtf8 : List Nat → Bool
  | [] => true
  | b :: rest =>
    if b ≤ 0x7F then isValidUtf8 rest
    else if 0xC2 ≤ b && b ≤ 0xDF then
      match rest with
      | c1 :: r => isCont c1 && isValidUtf8 r
      | [] => false
    else if b = 0xE0 then
      match rest with
      | c1 :: c2 :: r => (0xA0 ≤ c1 && c1 ≤ 0xBF) && isCont c2 && isValidUtf8 r
      | _ => false
    else if (0xE1 ≤ b && b ≤ 0xEC) || b = 0xEE || b = 0xEF then
      match rest with
      | c1 :: c2 :: r => isCont c1 && isCont c2 && isValidUtf8 r
      | _ => false
    else if b = 0xED then
      match rest with
      | c1 :: c2 :: r => (0x80 ≤ c1 && c1 ≤ 0x9F) && isCont c2 && isValidUtf8 r
      | _ => false
    else if b = 0xF0 then
      match rest with
      | c1 :: c2 :: c3 :: r =>
        (0x90 ≤ c1 && c1 ≤ 0xBF) && isCont c2 && isCont c3 && isValidUtf8 r
      | _ => false
    else if 0xF1 ≤ b && b ≤ 0xF3 then
      match rest with
      | c1 :: c2 :: c3 :: r => isCont c1 && isCont c2 && isCont c3 && isValidUtf8 r
      | _ => false
    else if b = 0xF4 then
      match rest with
      | c1 :: c2 :: c3 :: r =>
        (0x80 ≤ c1 && c1 ≤ 0x8F) && isCont c2 && isCont c3 && isValidUtf8 r
      | _ => false
    else false

/-- An HTTP response as observed by the worker: a status code and a body. -/
structure HttpResponse where
  code : Nat
  body : List Nat
deriving DecidableEq

/-- Behaviour of the HTTP transport for the single GET the worker issues:
whether `send` succeeds, and what `try_wait` yields (`none` is the outer
deadline error, `some none` the inner transport error, `some (some r)` a
delivered response). -/
structure HttpEnv where
  sendOk : Bool
  waitResult : Option (Option HttpResponse)

/-- The GET request the worker builds: target url, `User-Agent` header bytes
and the relative deadline in milliseconds. -/
structure HttpRequest where
  url : List Nat
  userAgent : List Nat
  deadlineMs : Nat
deriving DecidableEq

/-- Oracles for the external collaborators of the worker: the compare-and-set
outcome of the local-storage `mutate`, the HTTP transport, the
`serde_json` parse of a (UTF-8 valid) body, and the locally-held signing
identities together with each identity's submission outcome. -/
structure Env where
  casOk : Bool
  http : HttpEnv
  parseGh : List Nat → Option GithubInfo
  accounts : List (Nat × Bool)

/-- The node-local offchain storage entries the worker uses: the
`offchain-demo::gh-info` cache and the `offchain-demo::lock` lock.  The
outer `Option` is absence of the key; the inner `Option` is decodability of
the stored bytes (so `some none` is a present-but-undecodable value). -/
structure World where
  ledger : LedgerState
  sInfo : Option (Option GithubInfo)
  sLock : Option (Option Bool)

/-- `fetch_from_remote`: build the request from the fixed endpoint and the
task-queue entry at the sentinel id 1, send it with a 3000 ms deadline and
return the body of a 200 response; each failure point has its own error.
Additionally records the request that was handed to the transport. -/
def fetch_from_remote (http : HttpEnv) (st : LedgerState) :
    Except ErrorT (List Nat) × Option HttpRequest :=
  let remote_url_bytes := HTTP_REMOTE_REQUEST_BYTES
  let task_queue_thing := st.taskQueueByNumber 1
  let user_agent_bytes := task_queue_thing.http_header_usr
  if !isValidUtf8 user_agent_bytes then (.error .HttpFetchingError3, none)
  else if !isValidUtf8 remote_url_bytes then (.error .HttpFetchingError4, none)
  else if !isValidUtf8 user_agent_bytes then (.error .HttpFetchingError5, none)
  else
    let request : HttpRequest := ⟨remote_url_bytes, user_agent_bytes, 3000⟩
    if !http.sendOk then (.error .HttpFetchingError6, some request)
    else
      match http.waitResult with
      | none => (.error .HttpFetchingError7, some request)
      | some none => (.error .HttpFetchingError8, some request)
      | some (some response) =>
        if response.code ≠ 200 then (.error .HttpFetchingError9, some request)
        else (.ok response.body, some request)

/-- `fetch_n_parse`: run `fetch_from_remote` (collapsing any of its errors to
`HttpFetchingError0`), decode the body as UTF-8, parse it as `GithubInfo`. -/
def fetch_n_parse (env : Env) (st : LedgerState) : Except ErrorT GithubInfo :=
  match (fetch_from_remote env.http st).1 with
  | .error _ => .error .HttpFetchingError0
  | .ok resp_bytes =>
    if isValidUtf8 resp_bytes then
      match env.parseGh resp_bytes with
      | some gh_info => .ok gh_info
      | none => .error .HttpFetchingError2
    else .error .HttpFetchingError1

/-- The closure passed to `s_lock.mutate` in `fetch_if_needed`: acquire when
the lock is absent or free, fail with `AlreadyFetched` when it is held or in
the unexpected state. -/
def lockClosure : Option (Option Bool) → Except ErrorT Bool
  | none => .ok true
  | some (some false) => .ok true
  | _ => .error .AlreadyFetched

/-- `StorageValueRef::mutate` on the lock key: run the closure; on closure
error nothing is written; on closure success the new value is written only
when the compare-and-set sees no concurrent writer (`casOk`), otherwise the
inner `Err` is reported and nothing is written. -/
def lockMutate (casOk : Bool) (s : Option (Option Bool)) :
    Except ErrorT (Except Bool Bool) × Option (Option Bool) :=
  match lockClosure s with
  | .error e => (.error e, s)
  | .ok v => if casOk then (.ok (.ok v), some (some v)) else (.ok (.error v), s)

/-- Outcome of `fetch_if_needed`: its returned `Result`, the final world, and
whether the fetch-and-parse sequence (the network path) was entered. -/
structure FetchOutcome where
  result : Except ErrorT Unit
  world : World
  fetchAttempted : Bool

/-- `fetch_if_needed`: short-circuit on a cached `gh-info`; otherwise try to
acquire the lock via the atomic mutate; on acquisition run `fetch_n_parse`,
store the result and free the lock on success, free the lock and propagate
the error on failure; in every non-acquisition case fall through to
`Ok(())`. -/
def fetch_if_needed (env : Env) (w : World) : FetchOutcome :=
  match w.sInfo with
  | some (some _) => ⟨.ok (), w, false⟩
  | _ =>
    let m := lockMutate env.casOk w.sLock
    let w1 : World := { w with sLock := m.2 }
    match m.1 with
    | .ok (.ok true) =>
      match fetch_n_parse env w1.ledger with
      | .ok gh_info =>
        ⟨.ok (), { w1 with sInfo := some (some gh_info), sLock := some (some false) }, true⟩
      | .error err => ⟨.error err, { w1 with sLock := some (some false) }, true⟩
    | _ => ⟨.ok (), w1, false⟩

/-- Whether the keystore can sign: `Signer::all_accounts().can_sign()` is
true exactly when at least one local identity is held. -/
def can_sign (env : Env) : Bool := !env.accounts.isEmpty

/-- The `for (acc, res) in &results` loop of `signed_submit_agent`: return
`SignedSubmitNumberError` at the first failed per-identity result. -/
def checkSubmitResults : List (Nat × Bool) → Except ErrorT Unit
  | [] => .ok ()
  | (_, good) :: rest =>
    if good then checkSubmitResults rest else .error .SignedSubmitNumberError

/-- `signed_submit_agent`: fail when no signing identity is held; otherwise,
when a cached `gh-info` is present, submit `submit_agent_signed(login)` from
every identity and scan the per-identity results; when no cache is present do
nothing and succeed.  Also returns the list of submitted calls. -/
def signed_submit_agent (env : Env) (w : World) :
    Except ErrorT Unit × List PalletCall :=
  if !can_sign env then (.error .SignedSubmitNumberError, [])
  else
    match w.sInfo with
    | some (some gh_info) =>
      let calls := env.accounts.map (fun _ => PalletCall.submit_agent_signed gh_info.login)
      (checkSubmitResults env.accounts, calls)
    | _ => (.ok (), [])

/-- Which branch of the worker body ran. -/
inductive WorkerBranch where
  | fetchBranch
  | submitBranch
deriving DecidableEq

/-- `offchain_worker`: when `QueueAvailable` is true, set it false and run
`fetch_if_needed`; otherwise run `signed_submit_agent` (whose result the
source binds and discards).  Returns the final world and the branch taken. -/
def offchain_worker (env : Env) (w : World) : World × WorkerBranch :=
  if w.ledger.queueAvailable then
    let w1 : World := { w with ledger := { w.ledger with queueAvailable := false } }
    ((fetch_if_needed env w1).world, .fetchBranch)
  else
    let _result := signed_submit_agent env w
    (w, .submitBranch)

/-! ## Unsigned transaction validation -/

/-- Rejection reasons of the transaction pool (only `Call` is used here). -/
inductive InvalidTransactionT where
  | Call
deriving DecidableEq

/-- The source of a proposed transaction (unused by the pallet's check). -/
inductive TransactionSource where
  | InBlock
  | Local
  | External
deriving DecidableEq

/-- The `ValidTransaction` record built by the admission check: priority,
required and provided dedup tags (each provided tag carries the
`with_tag_prefix` string), longevity and the propagate flag. -/
structure ValidTransactionT where
  priority : Nat
  requires : List (List Nat)
  provides : List (String × List Nat)
  longevity : Nat
  propagate : Bool
deriving DecidableEq

/-- `validate_unsigned`: accept exactly `submit_number_unsigned`, attaching
the configured priority, the `offchain-demo`-prefixed dedup tag, longevity 3
and propagate = true; reject every other call with `InvalidTransaction::Call`. -/
def validate_unsigned (_source : TransactionSource) (prio : Nat) (call : PalletCall) :
    Except InvalidTransactionT ValidTransactionT :=
  match call with
  | .submit_number_unsigned _ =>
    .ok ⟨prio, [], [("offchain-demo", strToBytes "submit_number_unsigned")], 3, true⟩
  | _ => .error .Call

/-- Iterate `append_or_replace_number` (with `who = none`) over a list of
values, keeping only the ledger state. -/
def runInserts (vals : List Nat) (st : LedgerState) : LedgerState :=
  vals.foldl (fun s v => (append_or_replace_number none v s).2.1) st

/-! ## Concrete fixtures used by witnesses and counterexamples -/

/-- Concrete environment: CAS succeeds, the HTTP send fails, nothing parses,
no signing identities are held. -/
def envSendFail : Env := ⟨true, ⟨false, none⟩, fun _ => none, []⟩

/-- Concrete world: nothing cached, lock held. -/
def worldLockHeld : World := ⟨emptyLedger, none, some (some true)⟩

/-- Concrete world: nothing cached, lock absent. -/
def worldFree : World := ⟨emptyLedger, none, none⟩

/-- Concrete `GithubInfo` value. -/
def ghSample : GithubInfo := ⟨strToBytes "abc", [], 3⟩

/-- Concrete world: cached result present. -/
def worldCached : World := ⟨emptyLedger, some (some ghSample), none⟩

/-! ## Theorems for the claims -/

/-! ## Helper lemmas about the number buffer -/

/-- The numbers component of `runInserts` is the fold of the mutate-closure
body over the values. -/
lemma runInserts_numbers : ∀ (vals : List Nat) (st : LedgerState),
    (runInserts vals st).numbers = vals.foldl numbersStep st.numbers
  | [], _ => rfl
  | _ :: rest, st => runInserts_numbers rest
      ((append_or_replace_number none _ st).2.1)

/-- While the buffer is short enough, every call appends. -/
lemma foldl_numbersStep_fill : ∀ (vals acc : List Nat),
    acc.length + vals.length ≤ NUM_VEC_LEN →
    vals.foldl numbersStep acc = acc ++ vals := by
  intro vals
  induction vals with
  | nil => intro acc _; simp
  | cons v rest ih =>
    intro acc h
    simp only [List.length_cons] at h
    have hlt : acc.length < NUM_VEC_LEN := by omega
    simp only [List.foldl_cons]
    rw [show numbersStep acc v = acc ++ [v] from by simp [numbersStep, hlt]]
    rw [ih (acc ++ [v]) (by simp only [List.length_append, List.length_singleton]; omega)]
    simp

/-- Setting index 0 of a nonempty list replaces its head. -/
lemma set_zero_head (l : List Nat) (v : Nat) (h : l ≠ []) :
    l.set 0 v = v :: l.drop 1 := by
  cases l with
  | nil => exact absurd rfl h
  | cons a t => rfl

/-- Once the buffer is full, every further call overwrites index 0 only:
 the length and the tail are invariant under the fold. -/
lemma foldl_numbersStep_full : ∀ (rest l : List Nat), l.length = NUM_VEC_LEN →
    (rest.foldl numbersStep l).length = NUM_VEC_LEN ∧
    (rest.foldl numbersStep l).drop 1 = l.drop 1 := by
  intro rest
  induction rest with
  | nil => intro l h; exact ⟨h, rfl⟩
  | cons r rs ih =>
    intro l h
    cases l with
    | nil => simp [NUM_VEC_LEN] at h
    | cons a t =>
      have hstep : numbersStep (a :: t) r = r :: t := by
        simp only [numbersStep, h]
        simp [set_zero_head]
      simp only [List.foldl_cons, hstep]
      have hlen : (r :: t).length = NUM_VEC_LEN := by
        simpa using h
      simpa using ih (r :: t) hlen

/-- Shape of the buffer after at least `NUM_VEC_LEN` inserts from empty:
 it has length `NUM_VEC_LEN` and its tail is the tail of the first
`NUM_VEC_LEN` inserted values. -/
lemma foldl_numbersStep_shape (vals : List Nat) (h : NUM_VEC_LEN ≤ vals.length) :
    (vals.foldl numbersStep []).length = NUM_VEC_LEN ∧
    (vals.foldl numbersStep []).drop 1 = (vals.take NUM_VEC_LEN).drop 1 := by
  have htake : (vals.take NUM_VEC_LEN).length = NUM_VEC_LEN := by
    simp only [List.length_take]
    omega
  have hfill : (vals.take NUM_VEC_LEN).foldl numbersStep [] = vals.take NUM_VEC_LEN := by
    simpa using foldl_numbersStep_fill (vals.take NUM_VEC_LEN) [] (by simp [htake])
  have hsplit : vals.foldl numbersStep [] =
      (vals.drop NUM_VEC_LEN).foldl numbersStep (vals.take NUM_VEC_LEN) := by
    conv_lhs => rw [show vals = vals.take NUM_VEC_LEN ++ vals.drop NUM_VEC_LEN from
      (List.take_append_drop _ _).symm]
    rw [List.foldl_append, hfill]
  rw [hsplit]
  exact foldl_numbersStep_full (vals.drop NUM_VEC_LEN) (vals.take NUM_VEC_LEN) htake

/-- Counterexample to claim C1 as stated: in a state with no cached result
and the lock held, `fetch_if_needed` returns `Ok(())` to its caller, not the
`AlreadyFetched` error. -/
theorem C1_counterexample :
    (fetch_if_needed envSendFail worldLockHeld).result = .ok () ∧
    (fetch_if_needed envSendFail worldLockHeld).result ≠ .error .AlreadyFetched := by
  refine ⟨rfl, fun h => ?_⟩
  exact Except.noConfusion (show Except.ok () = Except.error ErrorT.AlreadyFetched from h)

/-- Claim C1 (amended): when no cached result is present and the lock is held
or in the unexpected state, the lock mutate raises `AlreadyFetched`
internally, but `fetch_if_needed` swallows it: the call returns success,
attempts no fetch, and leaves the whole world (cache, lock, ledger)
unchanged. -/
theorem C1_lock_contention_swallowed (env : Env) (w : World)
    (hinfo : w.sInfo = none ∨ w.sInfo = some none)
    (hlock : w.sLock = some (some true) ∨ w.sLock = some none) :
    lockClosure w.sLock = .error .AlreadyFetched ∧
    fetch_if_needed env w = ⟨.ok (), w, false⟩ := by
  obtain ⟨led, si, sl⟩ := w
  simp only at hinfo hlock
  obtain hl | hl := hlock <;> obtain hi | hi := hinfo <;> subst hl <;> subst hi <;>
    exact ⟨rfl, rfl⟩

/-- Witness for C1 at a concrete contended state. -/
theorem C1_witness :
    lockClosure worldLockHeld.sLock = .error .AlreadyFetched ∧
    fetch_if_needed envSendFail worldLockHeld = ⟨.ok (), worldLockHeld, false⟩ :=
  C1_lock_contention_swallowed envSendFail worldLockHeld (Or.inl rfl) (Or.inl rfl)

/-- Claim C2: whenever `fetch_if_needed` acquires the lock (no cached result,
lock absent or free, compare-and-set uncontended), the lock storage is free
when the call returns; on fetch-and-parse success the result is cached and
the call succeeds, and on fetch-and-parse failure the cache is untouched and
that specific error is propagated. -/
theorem C2_lock_released (env : Env) (w : World)
    (hinfo : w.sInfo = none ∨ w.sInfo = some none)
    (hlock : w.sLock = none ∨ w.sLock = some (some false))
    (hcas : env.casOk = true) :
    (fetch_if_needed env w).world.sLock = some (some false) ∧
    (∀ gh, fetch_n_parse env w.ledger = .ok gh →
      (fetch_if_needed env w).result = .ok () ∧
      (fetch_if_needed env w).world.sInfo = some (some gh)) ∧
    (∀ e, fetch_n_parse env w.ledger = .error e →
      (fetch_if_needed env w).result = .error e ∧
      (fetch_if_needed env w).world.sInfo = w.sInfo) := by
  obtain ⟨led, si, sl⟩ := w
  simp only at hinfo hlock
  obtain hl | hl := hlock <;> obtain hi | hi := hinfo <;> subst hl <;> subst hi <;>
    cases hfp : fetch_n_parse env led <;>
      simp [fetch_if_needed, lockMutate, lockClosure, hcas, hfp]

/-- Witness for C2: with the lock absent and a failing transport, the fetch
error (collapsed to `HttpFetchingError0` by `fetch_n_parse`) is propagated
and the lock ends up free. -/
theorem C2_witness :
    (fetch_if_needed envSendFail worldFree).world.sLock = some (some false) ∧
    (fetch_if_needed envSendFail worldFree).result = .error .HttpFetchingError0 := by
  have h := C2_lock_released envSendFail worldFree (Or.inl rfl) (Or.inl rfl) rfl
  exact ⟨h.1, (h.2.2 .HttpFetchingError0 rfl).1⟩

/-- Claim C3: whenever a cached result is present, `fetch_if_needed` returns
success immediately, performs no network request, and leaves the world
(including the lock storage) untouched. -/
theorem C3_cached_short_circuit (env : Env) (w : World) (gh : GithubInfo)
    (h : w.sInfo = some (some gh)) :
    fetch_if_needed env w = ⟨.ok (), w, false⟩ := by
  simp [fetch_if_needed, h]

/-- Witness for C3 at a concrete cached world. -/
theorem C3_witness :
    fetch_if_needed envSendFail worldCached = ⟨.ok (), worldCached, false⟩ :=
  C3_cached_short_circuit envSendFail worldCached ghSample rfl

/-- On a full buffer the mutate-closure body overwrites the head. -/
lemma numbersStep_of_full (l : List Nat) (v : Nat) (h : l.length = NUM_VEC_LEN) :
    numbersStep l v = v :: l.drop 1 := by
  have hnn : l ≠ [] := by
    intro hh
    rw [hh] at h
    simp [NUM_VEC_LEN] at h
  unfold numbersStep
  rw [h]
  simp [set_zero_head _ _ hnn]

/-- Counterexample to claim C4 as stated: inserting the values 0..15 in 16
calls does NOT leave values 10..15 at indices 0..5 and 6..9 at indices 6..9;
it leaves value 15 at index 0 and the values 1..9 at indices 1..9, because
once the buffer is full the overwrite index `len % 10` is always 0. -/
theorem C4_counterexample :
    (runInserts (List.range 16) emptyLedger).numbers ≠
      [10, 11, 12, 13, 14, 15, 6, 7, 8, 9] ∧
    (runInserts (List.range 16) emptyLedger).numbers =
      [15, 1, 2, 3, 4, 5, 6, 7, 8, 9] := by
  exact ⟨by decide, by decide⟩

/-- Claim C4 (amended): from an empty buffer, `append_or_replace_number`
called k ≤ 10 times yields a buffer holding the values in call order; called
k > 10 times it yields a buffer of length 10 where index 0 holds the value of
the most recent call and indices 1..9 still hold the values of calls 2..10
(the overwrite index is always `10 % 10 = 0` once the buffer is full);
concretely, inserting 0..15 in 16 calls leaves value 15 at index 0 and values
1..9 at indices 1..9. -/
theorem C4_buffer_behaviour :
    (∀ vals : List Nat, vals.length ≤ NUM_VEC_LEN →
      (runInserts vals emptyLedger).numbers = vals) ∧
    (∀ (vals : List Nat) (v : Nat), NUM_VEC_LEN ≤ vals.length →
      (runInserts (vals ++ [v]) emptyLedger).numbers =
        v :: (vals.take NUM_VEC_LEN).drop 1) ∧
    (runInserts (List.range 16) emptyLedger).numbers =
      [15, 1, 2, 3, 4, 5, 6, 7, 8, 9] := by
  refine ⟨?_, ?_, by decide⟩
  · intro vals h
    rw [runInserts_numbers]
    simpa using foldl_numbersStep_fill vals [] (by simpa using h)
  · intro vals v h
    rw [runInserts_numbers, show emptyLedger.numbers = [] from rfl, List.foldl_append]
    obtain ⟨hlen, hdrop⟩ := foldl_numbersStep_shape vals h
    simp only [List.foldl_cons, List.foldl_nil]
    rw [numbersStep_of_full _ v hlen, hdrop]

/-- Witness for C4 at concrete inputs: three inserts stay in call order, and
an eleventh insert overwrites index 0 of the full buffer. -/
theorem C4_witness :
    (runInserts [3, 1, 4] emptyLedger).numbers = [3, 1, 4] ∧
    (runInserts (List.range 10 ++ [42]) emptyLedger).numbers =
      42 :: ((List.range 10).take NUM_VEC_LEN).drop 1 :=
  ⟨C4_buffer_behaviour.1 [3, 1, 4] (by decide),
   C4_buffer_behaviour.2.1 (List.range 10) 42 (by decide)⟩

/-- Claim C9: on a buffer of length exactly 10, `append_or_replace_number`
writes the new value at index 0, keeps the length at 10, and leaves the
values at indices 1 through 9 unchanged. -/
theorem C9_full_buffer_frame (who : Option Nat) (n : Nat) (st : LedgerState)
    (h : st.numbers.length = NUM_VEC_LEN) :
    ((append_or_replace_number who n st).2.1).numbers = n :: st.numbers.drop 1 ∧
    ((append_or_replace_number who n st).2.1).numbers.length = NUM_VEC_LEN ∧
    ∀ i, 1 ≤ i → i < NUM_VEC_LEN →
      ((append_or_replace_number who n st).2.1).numbers[i]? = st.numbers[i]? := by
  have hnn : st.numbers ≠ [] := by
    intro hh
    rw [hh] at h
    simp [NUM_VEC_LEN] at h
  have hmain : ((append_or_replace_number who n st).2.1).numbers
      = n :: st.numbers.drop 1 := numbersStep_of_full st.numbers n h
  refine ⟨hmain, ?_, ?_⟩
  · rw [hmain]
    simp [h, NUM_VEC_LEN]
  · intro i h1 h2
    rw [hmain]
    obtain ⟨j, rfl⟩ : ∃ j, i = j + 1 := ⟨i - 1, by omega⟩
    cases hl : st.numbers with
    | nil => exact absurd hl hnn
    | cons a t => simp [hl]

/-- Concrete full ledger buffer for the C9 witness. -/
def stTen : LedgerState := { emptyLedger with numbers := [0, 1, 2, 3, 4, 5, 6, 7, 8, 9] }

/-- Witness for C9 on a concrete full buffer (index 3 checked explicitly). -/
theorem C9_witness :
    ((append_or_replace_number (some 5) 99 stTen).2.1).numbers
      = 99 :: stTen.numbers.drop 1 ∧
    ((append_or_replace_number (some 5) 99 stTen).2.1).numbers.length = NUM_VEC_LEN ∧
    ((append_or_replace_number (some 5) 99 stTen).2.1).numbers[3]?
      = stTen.numbers[3]? :=
  ⟨(C9_full_buffer_frame (some 5) 99 stTen (by decide)).1,
   (C9_full_buffer_frame (some 5) 99 stTen (by decide)).2.1,
   (C9_full_buffer_frame (some 5) 99 stTen (by decide)).2.2 3 (by decide) (by decide)⟩

/-- Concrete ledger state with the queue flag on. -/
def stQueueOn : LedgerState := { emptyLedger with queueAvailable := true }

/-- Counterexample to claim C5 as stated: with the unauthenticated `None`
origin, `empty_tasks` succeeds and flips `QueueAvailable` from true to false,
instead of returning a structured failure and leaving it unchanged. -/
theorem C5_counterexample :
    stQueueOn.queueAvailable = true ∧
    (empty_tasks Origin.NoOrigin stQueueOn).1 = .ok () ∧
    (empty_tasks Origin.NoOrigin stQueueOn).2.queueAvailable = false :=
  ⟨rfl, rfl, rfl⟩

/-- Claim C5 (amended): `empty_tasks` performs no authentication check at
all: every origin, signed or not, succeeds, sets `QueueAvailable` to false,
and deletes no `TaskQueueEntry` (and touches no other storage). -/
theorem C5_no_auth_check (origin : Origin) (st : LedgerState) :
    (empty_tasks origin st).1 = .ok () ∧
    (empty_tasks origin st).2.queueAvailable = false ∧
    (empty_tasks origin st).2.taskQueueByNumber = st.taskQueueByNumber ∧
    (empty_tasks origin st).2.numbers = st.numbers ∧
    (empty_tasks origin st).2.userAgentOnChain = st.userAgentOnChain :=
  ⟨rfl, rfl, rfl, rfl, rfl⟩

/-- Claim C6: the admission check accepts a call exactly when it is
`submit_number_unsigned`; accepted calls carry the configured priority, the
`offchain-demo`-prefixed dedup tag derived from the operation kind,
longevity 3 and propagate = true; every other call is rejected with
`InvalidTransaction::Call`. -/
theorem C6_admission (src : TransactionSource) (prio : Nat) (call : PalletCall) :
    (∀ n, call = PalletCall.submit_number_unsigned n →
      validate_unsigned src prio call =
        .ok ⟨prio, [], [("offchain-demo", strToBytes "submit_number_unsigned")], 3, true⟩) ∧
    ((∀ n, call ≠ PalletCall.submit_number_unsigned n) →
      validate_unsigned src prio call = .error .Call) ∧
    (∀ v, validate_unsigned src prio call = .ok v →
      ∃ n, call = PalletCall.submit_number_unsigned n) := by
  cases call with
  | submit_number_unsigned n0 =>
    exact ⟨(fun n hn => by cases hn; rfl), (fun hno => absurd rfl (hno n0)),
      (fun v _ => ⟨n0, rfl⟩)⟩
  | insert_new_task a b c =>
    exact ⟨(fun n hn => by cases hn), (fun _ => rfl), (fun v hv => by cases hv)⟩
  | empty_tasks =>
    exact ⟨(fun n hn => by cases hn), (fun _ => rfl), (fun v hv => by cases hv)⟩
  | submit_agent_signed a =>
    exact ⟨(fun n hn => by cases hn), (fun _ => rfl), (fun v hv => by cases hv)⟩
  | submit_number_signed a =>
    exact ⟨(fun n hn => by cases hn), (fun _ => rfl), (fun v hv => by cases hv)⟩

/-- Witness for C6: `submit_number_unsigned 42` is accepted with the full
metadata record, and `empty_tasks` is rejected as an invalid call. -/
theorem C6_witness :
    validate_unsigned .External 7 (.submit_number_unsigned 42) =
      .ok ⟨7, [], [("offchain-demo", strToBytes "submit_number_unsigned")], 3, true⟩ ∧
    validate_unsigned .External 7 .empty_tasks = .error .Call :=
  ⟨(C6_admission .External 7 (.submit_number_unsigned 42)).1 42 rfl,
   (C6_admission .External 7 .empty_tasks).2.1 (fun n hn => by cases hn)⟩

/-- Claim C7: each worker activation runs exactly one branch: with
`QueueAvailable` true it clears the flag and runs `fetch_if_needed`; with it
false it runs `signed_submit_agent` and leaves the world unchanged. -/
theorem C7_exactly_one_branch (env : Env) (w : World) :
    (w.ledger.queueAvailable = true →
      offchain_worker env w =
        ((fetch_if_needed env
            { w with ledger := { w.ledger with queueAvailable := false } }).world,
          .fetchBranch)) ∧
    (w.ledger.queueAvailable = false →
      offchain_worker env w = (w, .submitBranch)) := by
  constructor <;> intro h <;> simp [offchain_worker, h]

/-- Concrete world with the queue flag on. -/
def worldQueueOn : World := ⟨stQueueOn, none, none⟩

/-- Witness for C7 at a queue-on and a queue-off world. -/
theorem C7_witness :
    offchain_worker envSendFail worldQueueOn =
      ((fetch_if_needed envSendFail
          { worldQueueOn with
            ledger := { worldQueueOn.ledger with queueAvailable := false } }).world,
        .fetchBranch) ∧
    offchain_worker envSendFail worldFree = (worldFree, .submitBranch) :=
  ⟨(C7_exactly_one_branch envSendFail worldQueueOn).1 rfl,
   (C7_exactly_one_branch envSendFail worldFree).2 rfl⟩

/-- Claim C10: with at least one signing identity but no cached `gh-info`,
`signed_submit_agent` submits nothing and succeeds; with no signing identity
it fails with `SignedSubmitNumberError` regardless of the cache. -/
theorem C10_submit_agent (env : Env) (w : World) :
    (env.accounts ≠ [] → w.sInfo = none →
      signed_submit_agent env w = (.ok (), [])) ∧
    (env.accounts = [] →
      signed_submit_agent env w = (.error .SignedSubmitNumberError, [])) := by
  constructor
  · intro hacc hinfo
    have hcs : can_sign env = true := by
      simp [can_sign, List.isEmpty_iff]
      exact hacc
    simp [signed_submit_agent, hcs, hinfo]
  · intro hacc
    simp [signed_submit_agent, can_sign, hacc]

/-- Concrete environment holding one signing identity. -/
def envOneAccount : Env := ⟨true, ⟨false, none⟩, fun _ => none, [(1, true)]⟩

/-- Witness for C10: one identity and an empty cache gives a silent success;
no identity and a populated cache gives the signed-submission error. -/
theorem C10_witness :
    signed_submit_agent envOneAccount worldFree = (.ok (), []) ∧
    signed_submit_agent envSendFail worldCached =
      (.error .SignedSubmitNumberError, []) :=
  ⟨(C10_submit_agent envOneAccount worldFree).1 (by decide) rfl,
   (C10_submit_agent envSendFail worldCached).2 rfl⟩

/-- The fixed endpoint url is valid UTF-8 (it is plain ASCII). -/
lemma url_utf8 : isValidUtf8 HTTP_REMOTE_REQUEST_BYTES = true := by decide

/-- Claim C8: every request the fetch hands to the transport targets the
fixed configured endpoint, carries as `User-Agent` the header value of the
task-queue entry at the sentinel id 1, and has a 3000 ms deadline; and a
delivered response with status other than 200 yields the dedicated staged
error `HttpFetchingError9`. -/
theorem C8_wire_contract (http : HttpEnv) (st : LedgerState) :
    ((fetch_from_remote http st).2 = none ∨
     (fetch_from_remote http st).2 =
       some ⟨HTTP_REMOTE_REQUEST_BYTES, (st.taskQueueByNumber 1).http_header_usr, 3000⟩) ∧
    (∀ resp, isValidUtf8 (st.taskQueueByNumber 1).http_header_usr = true →
      http.sendOk = true → http.waitResult = some (some resp) → resp.code ≠ 200 →
      (fetch_from_remote http st).1 = .error .HttpFetchingError9) := by
  constructor
  · by_cases hA : isValidUtf8 ((st.taskQueueByNumber 1).http_header_usr) = true
    · cases hS : http.sendOk with
      | false => right; simp [fetch_from_remote, hA, hS, url_utf8]
      | true =>
        cases hW : http.waitResult with
        | none => right; simp [fetch_from_remote, hA, hS, hW, url_utf8]
        | some o =>
          cases o with
          | none => right; simp [fetch_from_remote, hA, hS, hW, url_utf8]
          | some resp =>
            by_cases hc : resp.code = 200
            · right; simp [fetch_from_remote, hA, hS, hW, hc, url_utf8]
            · right; simp [fetch_from_remote, hA, hS, hW, hc, url_utf8]
    · left
      have hA2 : isValidUtf8 ((st.taskQueueByNumber 1).http_header_usr) = false := by
        simpa using hA
      simp [fetch_from_remote, hA2]
  · intro resp hA hS hW hc
    simp [fetch_from_remote, hA, hS, hW, hc, url_utf8]

/-- Concrete transport delivering a 404 response. -/
def httpNon200 : HttpEnv := ⟨true, some (some ⟨404, []⟩)⟩

/-- Witness for C8: against the genesis ledger (empty header bytes) and a 404
response, the issued request is the fixed one and the result is the
dedicated non-200 error. -/
theorem C8_witness :
    ((fetch_from_remote httpNon200 emptyLedger).2 = none ∨
     (fetch_from_remote httpNon200 emptyLedger).2 =
       some ⟨HTTP_REMOTE_REQUEST_BYTES,
         (emptyLedger.taskQueueByNumber 1).http_header_usr, 3000⟩) ∧
    (fetch_from_remote httpNon200 emptyLedger).1 = .error .HttpFetchingError9 :=
  ⟨(C8_wire_contract httpNon200 emptyLedger).1,
   (C8_wire_contract httpNon200 emptyLedger).2 ⟨404, []⟩ rfl rfl rfl (by decide)⟩

end OffchainDemo
